import Mathlib

/-!
Shallow embedding of `generate_maps.py` (photo-map generator).

The program reads EXIF metadata from photo files, converts GPS
degrees/minutes/seconds coordinates to signed decimal degrees, and emits a
static HTML map page.  We embed its data model and the three components
(metadata reader `get_exif_data`, coordinate resolver `get_gps_coordinates`
with `convert_dms_to_decimal`, page builder `generate_maps_html`) as pure
Lean functions.

Modelling conventions:
- Python floats are modelled as exact rationals `ℚ`; each EXIF rational is
  a numerator/denominator pair of integers, and `numerator / denominator`
  is rational division guarded by the Python `ZeroDivisionError`.
- Python exceptions raised by the resolver (tuple `IndexError`, integer
  `ZeroDivisionError`) are modelled with `Except PyErr`.
- Python truthiness (`if gps_latitude and ...`) is modelled explicitly:
  a missing key gives `none`, a present-but-falsy value is `some ""` for a
  string or `some []` for a tuple.
- The EXIF dictionary is modelled as a structure holding the `GPSInfo`
  sub-dictionary (itself the four GPS sub-fields plus a flag for any other
  keys) and the list of other top-level tag names.
-/

/-- A rational value from EXIF metadata: a numerator/denominator pair, as
accessed via `.numerator` and `.denominator` in the source. -/
structure ExifRational where
  numerator : Int
  denominator : Int
deriving DecidableEq

/-- Python exceptions the resolver can raise: `IndexError` from indexing a
too-short DMS tuple, `ZeroDivisionError` from a zero denominator. -/
inductive PyErr where
  | indexError
  | zeroDivisionError
deriving DecidableEq

deriving instance DecidableEq for Except

/-- The `GPSInfo` sub-dictionary of the EXIF data: the four GPS sub-fields
the resolver reads (each `none` when its key is absent), plus a flag
recording whether the dictionary holds any further keys (which matters for
Python truthiness of the dictionary itself). -/
structure GPSInfoDict where
  GPSLatitude : Option (List ExifRational)
  GPSLatitudeRef : Option String
  GPSLongitude : Option (List ExifRational)
  GPSLongitudeRef : Option String
  otherKeys : Bool
deriving DecidableEq

/-- The EXIF dictionary returned by the metadata reader: the optional
`GPSInfo` sub-dictionary plus the names of the other decoded tags. -/
structure ExifData where
  GPSInfo : Option GPSInfoDict
  others : List String
deriving DecidableEq

/-- The empty EXIF mapping `{}`. -/
def ExifData.empty : ExifData := ⟨none, []⟩

/-- Python truthiness of the `GPSInfo` dictionary: `if not gps_info` holds
exactly when the dictionary is empty, i.e. none of the four GPS keys is
present and there is no other key. -/
def GPSInfoDict.isEmptyDict (g : GPSInfoDict) : Bool :=
  g.GPSLatitude.isNone && g.GPSLatitudeRef.isNone &&
    g.GPSLongitude.isNone && g.GPSLongitudeRef.isNone && !g.otherKeys

/-- Python truthiness of an optional DMS tuple: present and non-empty. -/
def truthyTriple : Option (List ExifRational) → Bool
  | none => false
  | some l => !l.isEmpty

/-- Python truthiness of an optional reference string: present and
non-empty. -/
def truthyRef : Option String → Bool
  | none => false
  | some s => s != ""

/-- `numerator / denominator` as in the source: float division of the two
integers, raising `ZeroDivisionError` when the denominator is zero. -/
def ratDiv (r : ExifRational) : Except PyErr ℚ :=
  if r.denominator = 0 then .error .zeroDivisionError
  else .ok ((r.numerator : ℚ) / (r.denominator : ℚ))

/-- Python tuple indexing `t[i]` for non-negative `i`: raises `IndexError`
when the tuple is too short. -/
def pyIndex (l : List ExifRational) (i : Nat) : Except PyErr ExifRational :=
  match l.get? i with
  | some x => .ok x
  | none => .error .indexError

/-- `convert_dms_to_decimal`: given the three already-divided components,
returns `degrees + minutes / 60.0 + seconds / 3600.0`. -/
def convert_dms_to_decimal (degrees minutes seconds : ℚ) : ℚ :=
  degrees + minutes / 60 + seconds / 3600

/-- The tuple argument built at the call sites of `convert_dms_to_decimal`:
`(t[0].numerator / t[0].denominator, t[1].numerator / t[1].denominator,
t[2].numerator / t[2].denominator)`, evaluated left to right. -/
def dmsComponents (l : List ExifRational) : Except PyErr (ℚ × ℚ × ℚ) := do
  let r0 ← pyIndex l 0
  let d ← ratDiv r0
  let r1 ← pyIndex l 1
  let m ← ratDiv r1
  let r2 ← pyIndex l 2
  let s ← ratDiv r2
  .ok (d, m, s)

/-- `get_gps_coordinates`: extracts and converts the GPS coordinates from
the EXIF data, returning `(latitude, longitude)` where each component is
`none` when not found, and propagating the Python exceptions the body can
raise. -/
def get_gps_coordinates (exif : ExifData) : Except PyErr (Option ℚ × Option ℚ) :=
  match exif.GPSInfo with
  | none => .ok (none, none)
  | some gi =>
    if gi.isEmptyDict then .ok (none, none)
    else if truthyTriple gi.GPSLatitude && truthyRef gi.GPSLatitudeRef &&
        truthyTriple gi.GPSLongitude && truthyRef gi.GPSLongitudeRef then do
      let (d, m, s) ← dmsComponents (gi.GPSLatitude.getD [])
      let latAbs := convert_dms_to_decimal d m s
      let lat := if gi.GPSLatitudeRef ≠ some "N" then -latAbs else latAbs
      let (d2, m2, s2) ← dmsComponents (gi.GPSLongitude.getD [])
      let lonAbs := convert_dms_to_decimal d2 m2 s2
      let lon := if gi.GPSLongitudeRef ≠ some "E" then -lonAbs else lonAbs
      .ok (some lat, some lon)
    else .ok (none, none)

/-- One entry of the mapping returned by the metadata library, as seen by
the decoding loop of `get_exif_data`: an entry whose decoded tag is
`GPSInfo` and whose value is a proper mapping carries the nested GPS
sub-dictionary (the `GPSTAGS` decoding loop of the source is abstracted
to yield it directly); every other well-formed entry is recorded by its
decoded tag name, its value being irrelevant to the rest of the program;
and a `bad` entry is one whose decoding raises — typically a `GPSInfo`
tag whose value is not iterable or not indexable by its own elements —
so that no assignment for it completes. -/
inductive ExifEntry where
  | gps (g : GPSInfoDict)
  | plain (tag : String)
  | bad (msg : String)
deriving DecidableEq

/-- The outcome of the external calls `Image.open` / `img._getexif()`:
either one of them raises before the decoding loop starts, or parsing
succeeds with `None` or a mapping, whose entries the loop then decodes
(an exception can still arise there, at a `bad` entry). -/
inductive ReadResult where
  | failure (msg : String)
  | success (info : Option (List ExifEntry))
deriving DecidableEq

/-- The completed assignment of one decoded entry into the `exif_data`
dictionary (a later `GPSInfo` entry overwrites an earlier one, as
dictionary assignment does).  A `bad` entry never completes its
assignment — `decodeEntries` stops before it; the case is only here for
totality and leaves the dictionary unchanged. -/
def insertEntry (acc : ExifData) : ExifEntry → ExifData
  | .gps g => { acc with GPSInfo := some g }
  | .plain tag => { acc with others := acc.others ++ [tag] }
  | .bad _ => acc

/-- Whether an entry decodes without raising. -/
def entryOk : ExifEntry → Bool
  | .bad _ => false
  | _ => true

/-- The error line printed by the `except` clause of `get_exif_data`. -/
def readErrMsg (image_path msg : String) : String :=
  "Error reading EXIF data from " ++ image_path ++ ": " ++ msg

/-- The decoding loop of `get_exif_data`.  The `try` block of the source
spans this loop, so when decoding an entry raises, the exception is
caught and logged and the mapping accumulated so far — possibly partially
filled — is what the function returns; the remaining entries are not
processed. -/
def decodeEntries (image_path : String) : ExifData → List ExifEntry → ExifData × List String
  | acc, [] => (acc, [])
  | acc, .gps g :: rest => decodeEntries image_path (insertEntry acc (.gps g)) rest
  | acc, .plain tag :: rest => decodeEntries image_path (insertEntry acc (.plain tag)) rest
  | acc, .bad msg :: _ => (acc, [readErrMsg image_path msg])

/-- The mapping built from a list of entries that all decode: the same
fold the loop performs when nothing raises. -/
def buildExif (entries : List ExifEntry) : ExifData :=
  entries.foldl insertEntry ExifData.empty

/-- `get_exif_data`: extracts all EXIF data from an image, returning the
resulting mapping together with the lines it prints.  On any failure the
`except` clause catches the exception and prints the error line, and the
function returns whatever `exif_data` holds at that point: the empty
mapping when `Image.open` or `_getexif` raised (before any entry was
decoded), the partially filled mapping when the decoding loop raised
midway. -/
def get_exif_data (image_path : String) (r : ReadResult) : ExifData × List String :=
  match r with
  | .failure msg => (ExifData.empty, [readErrMsg image_path msg])
  | .success none => (ExifData.empty, [])
  | .success (some entries) => decodeEntries image_path ExifData.empty entries

/-- `os.path.basename`: the final component of a slash-separated path. -/
def basename (p : String) : String :=
  (p.splitOn "/").getLastD ""

/-- One entry of `places_data`: name, latitude, longitude and image
reference of an input file whose coordinates resolved. -/
structure Place where
  name : String
  lat : ℚ
  lon : ℚ
  image : String
deriving DecidableEq

/-- The `places_data` entry appended for an image file at `path` whose
coordinates resolved to `(la, lo)`. -/
def mkPlace (path : String) (la lo : ℚ) : Place :=
  ⟨basename path, la, lo, basename path⟩

/-- The warning printed by `generate_maps_html` for a skipped image. -/
def warnMsg (path : String) : String :=
  "Warning: No GPS data found for " ++ path ++ ". Skipping this image."

/-- The accumulation loop of `generate_maps_html`: each input file (path
plus the outcome of reading it) is passed through `get_exif_data` and
`get_gps_coordinates`; files whose coordinates resolved contribute a
`places_data` entry, the others a warning line.  Returns the entries and
the printed lines, both in input order, propagating any exception the
resolver raises. -/
def processImages : List (String × ReadResult) → Except PyErr (List Place × List String)
  | [] => .ok ([], [])
  | (path, rr) :: rest =>
    let pr := get_exif_data path rr
    match get_gps_coordinates pr.1 with
    | .error e => .error e
    | .ok (some la, some lo) =>
      match processImages rest with
      | .error e => .error e
      | .ok (places, logs) => .ok (mkPlace path la lo :: places, pr.2 ++ logs)
    | .ok _ =>
      match processImages rest with
      | .error e => .error e
      | .ok (places, logs) => .ok (places, pr.2 ++ (warnMsg path :: logs))

/-- The map-center computation of `generate_maps_html`: the default center
`(60.6, 15.5)` when no image with GPS data was found, otherwise the
average of the available points. -/
def mapCenter (places : List Place) : ℚ × ℚ :=
  if places.isEmpty then ((60.6 : ℚ), (15.5 : ℚ))
  else ((places.map Place.lat).sum / places.length,
        (places.map Place.lon).sum / places.length)

/-- Deterministic rendering of a rational coordinate value.  Python
renders the float repr here; the embedding renders the exact rational,
which abstracts the numeral format but keeps the rendering a function of
the value. -/
def ratStr (q : ℚ) : String := toString q

/-- The Python `str()` of one `places_data` dictionary. -/
def placeStr (p : Place) : String :=
  "\x7b\x27name\x27: \x27" ++ p.name ++ "\x27, \x27lat\x27: " ++ ratStr p.lat ++
    ", \x27lon\x27: " ++ ratStr p.lon ++ ", \x27image\x27: \x27" ++ p.image ++ "\x27\x7d"

/-- The Python `str()` of the `places_data` list. -/
def placesStr (ps : List Place) : String :=
  "[" ++ String.intercalate ", " (ps.map placeStr) ++ "]"

/-- The static template text before the `{center_lat}` hole.  Braces,
apostrophes and backticks of the HTML/JS text are written as `\x..`
escapes. -/
def htmlA : String :=
  "<!DOCTYPE html>\n<html>\n<head>\n" ++
  "    <title>My Personal Photo Map</title>\n" ++
  "    <meta charset=\"utf-8\" />\n" ++
  "    <meta name=\"viewport\" content=\"width=device-width, initial-scale=1.0\">\n" ++
  "    <link rel=\"stylesheet\" href=\"https://unpkg.com/leaflet@1.9.4/dist/leaflet.css\" />\n" ++
  "    <script src=\"https://unpkg.com/leaflet@1.9.4/dist/leaflet.js\"></script>\n" ++
  "    <style>\n" ++
  "        html, body \x7b height: 100%; margin: 0; padding: 0; \x7d\n" ++
  "        #map \x7b width: 100%; height: 100%; \x7d\n" ++
  "        .leaflet-popup-content-wrapper \x7b background-color: #f9f9f9; border-radius: 8px; \x7d\n" ++
  "        .leaflet-popup-content \x7b margin: 15px; text-align: center; \x7d\n" ++
  "        .popup-image \x7b max-width: 200px; height: auto; border-radius: 5px; margin-bottom: 5px; \x7d\n" ++
  "    </style>\n</head>\n<body>\n<div id=\"map\"></div>\n<script>\n" ++
  "    const map = L.map(\x27map\x27).setView(["

/-- The static template text between the `{center_lon}` and
`{places_data}` holes. -/
def htmlB : String :=
  "], 8);\n" ++
  "    L.tileLayer(\x27https://\x7bs\x7d.tile.opentopomap.org/\x7bz\x7d/\x7bx\x7d/\x7by\x7d.png\x27, \x7b\n" ++
  "        maxZoom: 17,\n" ++
  "        attribution: \x27Map data: &copy; <a href=\"https://www.openstreetmap.org/copyright\">OpenStreetMap</a> contributors, <a href=\"http://viewfinderpanoramas.org\">SRTM</a> | Map style: &copy; <a href=\"https://opentopomap.org\">OpenTopoMap</a> (<a href=\"https://creativecommons.org/licenses/by-sa/3.0/\">CC-BY-SA</a>)\x27\n" ++
  "    \x7d).addTo(map);\n\n" ++
  "    const places = "

/-- The static template text after the `{places_data}` hole. -/
def htmlC : String :=
  ";\n\n" ++
  "    const markers = [];\n" ++
  "    places.forEach(place => \x7b\n" ++
  "        const marker = L.marker([place.lat, place.lon]);\n" ++
  "        markers.push(marker);\n\n" ++
  "        const popupContent = \x60\n" ++
  "            <b>$\x7bplace.name\x7d</b><br>\n" ++
  "            <img src=\"$\x7bplace.image\x7d\" alt=\"$\x7bplace.name\x7d\" class=\"popup-image\">\n" ++
  "        \x60;\n" ++
  "        marker.bindPopup(popupContent);\n" ++
  "        marker.on(\x27mouseover\x27, function (e) \x7b this.openPopup(); \x7d);\n" ++
  "        marker.on(\x27mouseout\x27, function (e) \x7b this.closePopup(); \x7d);\n" ++
  "        marker.addTo(map);\n" ++
  "    \x7d);\n\n" ++
  "    if (markers.length > 0) \x7b\n" ++
  "        const group = new L.featureGroup(markers);\n" ++
  "        map.fitBounds(group.getBounds());\n" ++
  "    \x7d\n</script>\n</body>\n</html>"

/-- The f-string of `generate_maps_html`: the static template with the
center coordinates and the `places_data` list substituted. -/
def renderHtml (cLat cLon : ℚ) (ps : List Place) : String :=
  htmlA ++ ratStr cLat ++ ", " ++ ratStr cLon ++ htmlB ++ placesStr ps ++ htmlC

/-- `generate_maps_html`: processes the input files, computes the map
center, and returns the generated document together with the printed
lines, propagating any exception the resolver raises. -/
def generate_maps_html (files : List (String × ReadResult)) :
    Except PyErr (String × List String) :=
  match processImages files with
  | .error e => .error e
  | .ok (ps, logs) => .ok (renderHtml (mapCenter ps).1 (mapCenter ps).2 ps, logs)

/-- The arithmetic mean of a list of rationals, as the spec words it. -/
def arithMean (xs : List ℚ) : ℚ := xs.sum / xs.length

/-- Spec-side characterisation of which input files contribute a marker:
the files whose coordinates resolve (reader output fed to the resolver,
both components present). -/
def resolvedPlace (f : String × ReadResult) : Option Place :=
  match get_gps_coordinates (get_exif_data f.1 f.2).1 with
  | .ok (some la, some lo) => some (mkPlace f.1 la lo)
  | _ => none

/-- The four-way truthiness test guarding the conversion in
`get_gps_coordinates` (`if gps_latitude and gps_latitude_ref and
gps_longitude and gps_longitude_ref`), folded over the whole EXIF
mapping: false when `GPSInfo` itself is absent. -/
def fourTruthy (e : ExifData) : Bool :=
  match e.GPSInfo with
  | none => false
  | some gi =>
    truthyTriple gi.GPSLatitude && truthyRef gi.GPSLatitudeRef &&
      truthyTriple gi.GPSLongitude && truthyRef gi.GPSLongitudeRef

/-- The latitude DMS field, looked up through the `GPSInfo` mapping. -/
def latTriple (e : ExifData) : Option (List ExifRational) :=
  e.GPSInfo.bind GPSInfoDict.GPSLatitude

/-- The latitude hemisphere reference, looked up through `GPSInfo`. -/
def latRef (e : ExifData) : Option String :=
  e.GPSInfo.bind GPSInfoDict.GPSLatitudeRef

/-- The longitude DMS field, looked up through `GPSInfo`. -/
def lonTriple (e : ExifData) : Option (List ExifRational) :=
  e.GPSInfo.bind GPSInfoDict.GPSLongitude

/-- The longitude hemisphere reference, looked up through `GPSInfo`. -/
def lonRef (e : ExifData) : Option String :=
  e.GPSInfo.bind GPSInfoDict.GPSLongitudeRef

lemma resolver_absent_of_not_truthy (e : ExifData) (h : fourTruthy e = false) :
    get_gps_coordinates e = .ok (none, none) := by
  unfold get_gps_coordinates
  cases hg : e.GPSInfo with
  | none => rfl
  | some gi =>
    simp only [fourTruthy, hg] at h
    cases he : gi.isEmptyDict with
    | true => simp [he]
    | false => simp [he, h]

lemma not_truthy_of_field_missing (e : ExifData)
    (h : latTriple e = none ∨ latRef e = none ∨ lonTriple e = none ∨ lonRef e = none) :
    fourTruthy e = false := by
  cases hg : e.GPSInfo with
  | none => simp [fourTruthy, hg]
  | some gi =>
    simp only [latTriple, latRef, lonTriple, lonRef, hg, Option.bind] at h
    rcases h with h | h | h | h <;>
      simp [fourTruthy, hg, truthyTriple, truthyRef, h]

lemma not_truthy_of_field_falsy (e : ExifData)
    (h : latTriple e = some [] ∨ latRef e = some "" ∨
         lonTriple e = some [] ∨ lonRef e = some "") :
    fourTruthy e = false := by
  cases hg : e.GPSInfo with
  | none => simp [fourTruthy, hg]
  | some gi =>
    simp only [latTriple, latRef, lonTriple, lonRef, hg, Option.bind] at h
    rcases h with h | h | h | h <;>
      simp [fourTruthy, hg, truthyTriple, truthyRef, h]

/-- Claim C1: for every DMS triple given as rationals whose hemisphere
references equal the positive markers ("N" for latitude, "E" for
longitude), the resolver returns the decimal value
`d + m/60 + s/3600`, each rational reduced to its numeric value before
the formula is applied. -/
theorem c1_positive_marker_conversion (e : ExifData) (gi : GPSInfoDict)
    (a b c x y z : ExifRational)
    (hg : e.GPSInfo = some gi)
    (hlat : gi.GPSLatitude = some [a, b, c])
    (hlatref : gi.GPSLatitudeRef = some "N")
    (hlon : gi.GPSLongitude = some [x, y, z])
    (hlonref : gi.GPSLongitudeRef = some "E")
    (ha : a.denominator ≠ 0) (hb : b.denominator ≠ 0) (hc : c.denominator ≠ 0)
    (hx : x.denominator ≠ 0) (hy : y.denominator ≠ 0) (hz : z.denominator ≠ 0) :
    get_gps_coordinates e =
      .ok (some ((a.numerator : ℚ) / (a.denominator : ℚ) +
                 ((b.numerator : ℚ) / (b.denominator : ℚ)) / 60 +
                 ((c.numerator : ℚ) / (c.denominator : ℚ)) / 3600),
           some ((x.numerator : ℚ) / (x.denominator : ℚ) +
                 ((y.numerator : ℚ) / (y.denominator : ℚ)) / 60 +
                 ((z.numerator : ℚ) / (z.denominator : ℚ)) / 3600)) := by
  unfold get_gps_coordinates
  rw [hg]
  simp [GPSInfoDict.isEmptyDict, hlat, hlatref, hlon, hlonref, truthyTriple, truthyRef,
    dmsComponents, pyIndex, ratDiv, ha, hb, hc, hx, hy, hz, convert_dms_to_decimal,
    Bind.bind, Except.bind]

/-- The GPS dictionary and EXIF mapping of the C1 witness: the C7 metadata
of the spec with the longitude reference set to the positive marker. -/
def giC1 : GPSInfoDict :=
  ⟨some [⟨40, 1⟩, ⟨26, 1⟩, ⟨46, 1⟩], some "N",
   some [⟨79, 1⟩, ⟨56, 1⟩, ⟨55, 1⟩], some "E", false⟩

def exC1 : ExifData := ⟨some giC1, []⟩

theorem c1_witness :
    get_gps_coordinates exC1 =
      .ok (some (((40 : Int) : ℚ) / ((1 : Int) : ℚ) +
                 (((26 : Int) : ℚ) / ((1 : Int) : ℚ)) / 60 +
                 (((46 : Int) : ℚ) / ((1 : Int) : ℚ)) / 3600),
           some (((79 : Int) : ℚ) / ((1 : Int) : ℚ) +
                 (((56 : Int) : ℚ) / ((1 : Int) : ℚ)) / 60 +
                 (((55 : Int) : ℚ) / ((1 : Int) : ℚ)) / 3600)) :=
  c1_positive_marker_conversion exC1 giC1 ⟨40, 1⟩ ⟨26, 1⟩ ⟨46, 1⟩ ⟨79, 1⟩ ⟨56, 1⟩ ⟨55, 1⟩
    rfl rfl rfl rfl rfl (by decide) (by decide) (by decide) (by decide) (by decide) (by decide)

/-- The C2 counterexample metadata: a well-formed DMS pair whose latitude
reference is the empty string, a malformed non-"N" reference value. -/
def exC2bad : ExifData :=
  ⟨some ⟨some [⟨40, 1⟩, ⟨26, 1⟩, ⟨46, 1⟩], some "",
         some [⟨79, 1⟩, ⟨56, 1⟩, ⟨55, 1⟩], some "W", false⟩, []⟩

/-- Claim C2, counterexample: the empty string is a hemisphere reference
value other than the positive marker, yet the resolver reports the
coordinate absent instead of returning the negated decimal value. -/
theorem c2_counterexample :
    get_gps_coordinates exC2bad = .ok (none, none) ∧
    get_gps_coordinates exC2bad ≠
      .ok (some (-((40 : ℚ) + 26 / 60 + 46 / 3600)),
           some (-((79 : ℚ) + 56 / 60 + 55 / 3600))) := by
  refine ⟨resolver_absent_of_not_truthy exC2bad (by decide), ?_⟩
  rw [resolver_absent_of_not_truthy exC2bad (by decide)]
  simp

/-- Claim C2 (amended): for every DMS triple and every non-empty
hemisphere reference other than the positive marker, the resolver returns
the negation of `d + m/60 + s/3600`; a present-but-empty reference is
instead treated as absent. -/
theorem c2_negative_marker_conversion (e : ExifData) (gi : GPSInfoDict)
    (a b c x y z : ExifRational) (rl rlo : String)
    (hg : e.GPSInfo = some gi)
    (hlat : gi.GPSLatitude = some [a, b, c])
    (hlatref : gi.GPSLatitudeRef = some rl)
    (hrl : rl ≠ "N") (hrl2 : rl ≠ "")
    (hlon : gi.GPSLongitude = some [x, y, z])
    (hlonref : gi.GPSLongitudeRef = some rlo)
    (hrlo : rlo ≠ "E") (hrlo2 : rlo ≠ "")
    (ha : a.denominator ≠ 0) (hb : b.denominator ≠ 0) (hc : c.denominator ≠ 0)
    (hx : x.denominator ≠ 0) (hy : y.denominator ≠ 0) (hz : z.denominator ≠ 0) :
    get_gps_coordinates e =
      .ok (some (-((a.numerator : ℚ) / (a.denominator : ℚ) +
                   ((b.numerator : ℚ) / (b.denominator : ℚ)) / 60 +
                   ((c.numerator : ℚ) / (c.denominator : ℚ)) / 3600)),
           some (-((x.numerator : ℚ) / (x.denominator : ℚ) +
                   ((y.numerator : ℚ) / (y.denominator : ℚ)) / 60 +
                   ((z.numerator : ℚ) / (z.denominator : ℚ)) / 3600))) := by
  unfold get_gps_coordinates
  rw [hg]
  simp [GPSInfoDict.isEmptyDict, hlat, hlatref, hlon, hlonref, truthyTriple, truthyRef,
    dmsComponents, pyIndex, ratDiv, ha, hb, hc, hx, hy, hz, convert_dms_to_decimal,
    Bind.bind, Except.bind, bne_iff_ne, hrl, hrl2, hrlo, hrlo2]

/-- The GPS dictionary and EXIF mapping of the C2 witness: southern and
western hemisphere references. -/
def giC2 : GPSInfoDict :=
  ⟨some [⟨10, 1⟩, ⟨0, 1⟩, ⟨0, 1⟩], some "S",
   some [⟨20, 1⟩, ⟨30, 1⟩, ⟨0, 1⟩], some "W", false⟩

def exC2 : ExifData := ⟨some giC2, []⟩

theorem c2_witness :
    get_gps_coordinates exC2 =
      .ok (some (-(((10 : Int) : ℚ) / ((1 : Int) : ℚ) +
                   (((0 : Int) : ℚ) / ((1 : Int) : ℚ)) / 60 +
                   (((0 : Int) : ℚ) / ((1 : Int) : ℚ)) / 3600)),
           some (-(((20 : Int) : ℚ) / ((1 : Int) : ℚ) +
                   (((30 : Int) : ℚ) / ((1 : Int) : ℚ)) / 60 +
                   (((0 : Int) : ℚ) / ((1 : Int) : ℚ)) / 3600))) :=
  c2_negative_marker_conversion exC2 giC2 ⟨10, 1⟩ ⟨0, 1⟩ ⟨0, 1⟩ ⟨20, 1⟩ ⟨30, 1⟩ ⟨0, 1⟩
    "S" "W" rfl rfl rfl (by decide) (by decide) rfl rfl (by decide) (by decide)
    (by decide) (by decide) (by decide) (by decide) (by decide) (by decide)

/-- Claim C3: whenever any one of the four required GPS sub-fields is
missing from the metadata mapping (in any combination, including the
whole `GPSInfo` block being absent), the resolver reports the whole
coordinate absent: both components are `None`, never a partially
resolved pair. -/
theorem c3_missing_field_absent (e : ExifData)
    (h : latTriple e = none ∨ latRef e = none ∨
         lonTriple e = none ∨ lonRef e = none) :
    get_gps_coordinates e = .ok (none, none) :=
  resolver_absent_of_not_truthy e (not_truthy_of_field_missing e h)

/-- The C3 witness metadata: latitude reference key absent, the other
three sub-fields present. -/
def exC3 : ExifData :=
  ⟨some ⟨some [⟨40, 1⟩, ⟨26, 1⟩, ⟨46, 1⟩], none,
         some [⟨79, 1⟩, ⟨56, 1⟩, ⟨55, 1⟩], some "W", false⟩, []⟩

theorem c3_witness : get_gps_coordinates exC3 = .ok (none, none) :=
  c3_missing_field_absent exC3 (Or.inr (Or.inl rfl))

/-- Claim C10: a GPS sub-field that is present but falsy (an empty DMS
tuple or an empty reference string) makes the resolver return
`(None, None)`, treating the field as absent rather than as an
opposite-hemisphere or malformed value. -/
theorem c10_falsy_field_absent (e : ExifData)
    (h : latTriple e = some [] ∨ latRef e = some "" ∨
         lonTriple e = some [] ∨ lonRef e = some "") :
    get_gps_coordinates e = .ok (none, none) :=
  resolver_absent_of_not_truthy e (not_truthy_of_field_falsy e h)

/-- The C10 witness metadata: the latitude DMS tuple is present but
empty, every other sub-field present and well-formed. -/
def exC10 : ExifData :=
  ⟨some ⟨some [], some "N",
         some [⟨79, 1⟩, ⟨56, 1⟩, ⟨55, 1⟩], some "W", false⟩, []⟩

theorem c10_witness : get_gps_coordinates exC10 = .ok (none, none) :=
  c10_falsy_field_absent exC10 (Or.inl rfl)

/-- The C5 counterexample metadata: all four GPS sub-fields present and
truthy, but the latitude DMS tuple has a single component. -/
def exC5short : ExifData :=
  ⟨some ⟨some [⟨40, 1⟩], some "N",
         some [⟨79, 1⟩, ⟨56, 1⟩, ⟨55, 1⟩], some "W", false⟩, []⟩

/-- Metadata whose latitude degrees component has a zero denominator. -/
def exC5zero : ExifData :=
  ⟨some ⟨some [⟨40, 0⟩, ⟨26, 1⟩, ⟨46, 1⟩], some "N",
         some [⟨79, 1⟩, ⟨56, 1⟩, ⟨55, 1⟩], some "W", false⟩, []⟩

/-- Claim C5, counterexample: a present but malformed GPS sub-structure
(a DMS tuple with fewer than three components) makes the resolver raise
`IndexError`; the exception propagates, so absence of data is not its
only reported outcome. -/
theorem c5_counterexample :
    get_gps_coordinates exC5short = .error PyErr.indexError := by
  simp [exC5short, get_gps_coordinates, dmsComponents, pyIndex, ratDiv, truthyTriple,
    truthyRef, GPSInfoDict.isEmptyDict, Bind.bind, Except.bind]

/-- Claim C5 (amended): the resolver raises no exception when any of the
four GPS sub-fields is missing or falsy (the guard fails and it reports
absence), but a present malformed sub-structure does raise: `IndexError`
for a DMS tuple with fewer than three components, `ZeroDivisionError`
for a zero denominator. -/
theorem c5_malformed_raises :
    (∀ e : ExifData, fourTruthy e = false →
      get_gps_coordinates e = .ok (none, none)) ∧
    get_gps_coordinates exC5short = .error PyErr.indexError ∧
    get_gps_coordinates exC5zero = .error PyErr.zeroDivisionError := by
  refine ⟨resolver_absent_of_not_truthy, ?_, ?_⟩ <;>
    simp [exC5short, exC5zero, get_gps_coordinates, dmsComponents, pyIndex, ratDiv,
      truthyTriple, truthyRef, GPSInfoDict.isEmptyDict, Bind.bind, Except.bind]

theorem c5_witness : get_gps_coordinates ExifData.empty = .ok (none, none) :=
  c5_malformed_raises.1 ExifData.empty rfl

/-- The round-trip metadata of the spec: latitude (40, 26, 46) N and
longitude (79, 56, 55) W. -/
def exC7 : ExifData :=
  ⟨some ⟨some [⟨40, 1⟩, ⟨26, 1⟩, ⟨46, 1⟩], some "N",
         some [⟨79, 1⟩, ⟨56, 1⟩, ⟨55, 1⟩], some "W", false⟩, []⟩

/-- Claim C7: on the spec's round-trip metadata the resolver yields
exactly (40 + 26/60 + 46/3600, -(79 + 56/60 + 55/3600)), which is within
0.0001 of the approximate pair (40.4461, -79.9486). -/
theorem c7_round_trip :
    get_gps_coordinates exC7 =
      .ok (some ((40 : ℚ) + 26 / 60 + 46 / 3600),
           some (-((79 : ℚ) + 56 / 60 + 55 / 3600))) ∧
    |((40 : ℚ) + 26 / 60 + 46 / 3600) - 40.4461| ≤ 1 / 10000 ∧
    |(-((79 : ℚ) + 56 / 60 + 55 / 3600)) - (-79.9486)| ≤ 1 / 10000 := by
  refine ⟨?_, by rw [abs_sub_le_iff]; constructor <;> norm_num,
    by rw [abs_sub_le_iff]; constructor <;> norm_num⟩
  simp [exC7, get_gps_coordinates, dmsComponents, pyIndex, ratDiv, truthyTriple,
    truthyRef, GPSInfoDict.isEmptyDict, convert_dms_to_decimal, Bind.bind, Except.bind]

lemma mapCenter_eq_mean (ps : List Place) (h : ps ≠ []) :
    mapCenter ps = (arithMean (ps.map Place.lat), arithMean (ps.map Place.lon)) := by
  cases ps with
  | nil => exact absurd rfl h
  | cons p l => simp [mapCenter, arithMean]

/-- Claim C4: for a non-empty list of records the map center is the
arithmetic mean of the latitudes and of the longitudes; for the empty
list it is the fixed fallback pair (60.6, 15.5). -/
theorem c4_center_is_mean :
    (∀ ps : List Place, ps ≠ [] →
      mapCenter ps = (arithMean (ps.map Place.lat), arithMean (ps.map Place.lon))) ∧
    mapCenter [] = ((60.6 : ℚ), (15.5 : ℚ)) :=
  ⟨mapCenter_eq_mean, rfl⟩

/-- A concrete two-record list for the C4 witness. -/
def psC4 : List Place := [⟨"a.jpg", 1, 2, "a.jpg"⟩, ⟨"b.jpg", 3, 4, "b.jpg"⟩]

theorem c4_witness :
    mapCenter psC4 = (arithMean (psC4.map Place.lat), arithMean (psC4.map Place.lon)) :=
  c4_center_is_mean.1 psC4 (List.cons_ne_nil _ _)

/-- The C6 counterexample input: parsing succeeds, one tag is decoded and
assigned, then decoding the next entry (a `GPSInfo` value that is not a
mapping) raises inside the loop. -/
def entriesC6 : List ExifEntry := [.plain "Make", .bad "TypeError"]

/-- Claim C6, counterexample: when the decoding loop raises after an
entry was already assigned, the caught failure makes the reader return
the partially filled mapping accumulated so far — not the empty one the
claim promises. -/
theorem c6_counterexample :
    get_exif_data "a.jpg" (.success (some entriesC6)) =
      (⟨none, ["Make"]⟩, [readErrMsg "a.jpg" "TypeError"]) ∧
    (⟨none, ["Make"]⟩ : ExifData) ≠ ExifData.empty := by
  refine ⟨rfl, ?_⟩
  simp [ExifData.empty]

lemma decodeEntries_stops_at_bad (path msg : String) :
    ∀ (good : List ExifEntry) (acc : ExifData) (rest : List ExifEntry),
      (∀ e ∈ good, entryOk e = true) →
      decodeEntries path acc (good ++ ExifEntry.bad msg :: rest) =
        (good.foldl insertEntry acc, [readErrMsg path msg]) := by
  intro good
  induction good with
  | nil => intro acc rest h; rfl
  | cons e g ih =>
    intro acc rest h
    have hg : ∀ x ∈ g, entryOk x = true :=
      fun x hx => h x (List.mem_cons_of_mem _ hx)
    cases e with
    | gps g' =>
      simp only [List.cons_append, decodeEntries, List.foldl_cons]
      exact ih (insertEntry acc (.gps g')) rest hg
    | plain t =>
      simp only [List.cons_append, decodeEntries, List.foldl_cons]
      exact ih (insertEntry acc (.plain t)) rest hg
    | bad m =>
      have := h (.bad m) (List.mem_cons_self _ _)
      simp [entryOk] at this

/-- Claim C6 (amended): on any read/parse failure the metadata reader
catches the exception, logs it, and returns the mapping accumulated
before the failure — the empty mapping when opening or parsing raised
before any entry was decoded, the possibly partially filled mapping of
the already-decoded entries when the decoding loop raised — and
processing continues with the next file. -/
theorem c6_reader_failure_behavior :
    (∀ path msg, get_exif_data path (.failure msg) =
      (ExifData.empty, [readErrMsg path msg])) ∧
    (∀ path msg (good rest : List ExifEntry), (∀ e ∈ good, entryOk e = true) →
      get_exif_data path (.success (some (good ++ ExifEntry.bad msg :: rest))) =
        (buildExif good, [readErrMsg path msg])) ∧
    (∀ path msg (rest : List (String × ReadResult)) ps logs,
      processImages rest = .ok (ps, logs) →
      processImages ((path, .failure msg) :: rest) =
        .ok (ps, readErrMsg path msg :: warnMsg path :: logs)) := by
  refine ⟨fun path msg => rfl, ?_, ?_⟩
  · intro path msg good rest h
    simpa [get_exif_data, buildExif] using
      decodeEntries_stops_at_bad path msg good ExifData.empty rest h
  · intro path msg rest ps logs h
    simp [processImages, get_exif_data, get_gps_coordinates, ExifData.empty, h]

theorem c6_behavior_witness :
    get_exif_data "a.jpg" (.failure "boom") =
      (ExifData.empty, [readErrMsg "a.jpg" "boom"]) ∧
    get_exif_data "b.jpg" (.success (some ([.plain "Make"] ++ ExifEntry.bad "TypeError" :: []))) =
      (buildExif [.plain "Make"], [readErrMsg "b.jpg" "TypeError"]) ∧
    processImages [("c.jpg", .failure "oops")] =
      .ok ([], [readErrMsg "c.jpg" "oops", warnMsg "c.jpg"]) :=
  ⟨c6_reader_failure_behavior.1 "a.jpg" "boom",
   c6_reader_failure_behavior.2.1 "b.jpg" "TypeError" [.plain "Make"] [] (by decide),
   c6_reader_failure_behavior.2.2 "c.jpg" "oops" [] [] [] rfl⟩

/-- Claim C9: the page builder is a deterministic function of its input
sequence: two runs on the same sequence produce identical documents. -/
theorem c9_deterministic (files : List (String × ReadResult))
    (o1 o2 : Except PyErr (String × List String))
    (h1 : generate_maps_html files = o1) (h2 : generate_maps_html files = o2) :
    o1 = o2 := by
  rw [← h1, ← h2]

theorem c9_witness : generate_maps_html [] = generate_maps_html [] :=
  c9_deterministic [] (generate_maps_html []) (generate_maps_html []) rfl rfl

lemma processImages_ok_spec :
    ∀ (files : List (String × ReadResult)) (ps : List Place) (logs : List String),
      processImages files = .ok (ps, logs) →
      ps = files.filterMap resolvedPlace ∧
      ∀ f ∈ files, resolvedPlace f = none → warnMsg f.1 ∈ logs := by
  intro files
  induction files with
  | nil =>
    intro ps logs h
    simp only [processImages, Except.ok.injEq, Prod.mk.injEq] at h
    obtain ⟨h1, h2⟩ := h
    subst h1
    subst h2
    simp
  | cons hd tl ih =>
    intro ps logs h
    obtain ⟨path, rr⟩ := hd
    simp only [processImages] at h
    cases hgps : get_gps_coordinates (get_exif_data path rr).1 with
    | error e => rw [hgps] at h; exact absurd h (by simp)
    | ok val =>
      obtain ⟨la, lo⟩ := val
      rw [hgps] at h
      cases hrest : processImages tl with
      | error e =>
        rw [hrest] at h
        cases la <;> cases lo <;> simp at h
      | ok pls =>
        obtain ⟨ps', logs'⟩ := pls
        rw [hrest] at h
        obtain ⟨ihp, ihw⟩ := ih ps' logs' hrest
        cases la with
        | some la =>
          cases lo with
          | some lo =>
            simp only [Except.ok.injEq, Prod.mk.injEq] at h
            obtain ⟨hps, hlogs⟩ := h
            subst hps
            subst hlogs
            constructor
            · simp [List.filterMap_cons, resolvedPlace, hgps, ihp]
            · intro f hf hnone
              rcases List.mem_cons.mp hf with hf | hf
              · subst hf
                simp [resolvedPlace, hgps] at hnone
              · exact List.mem_append_right _ (ihw f hf hnone)
          | none =>
            simp only [Except.ok.injEq, Prod.mk.injEq] at h
            obtain ⟨hps, hlogs⟩ := h
            subst hps
            subst hlogs
            constructor
            · simp [List.filterMap_cons, resolvedPlace, hgps, ihp]
            · intro f hf hnone
              rcases List.mem_cons.mp hf with hf | hf
              · subst hf
                exact List.mem_append_right _ (List.mem_cons_self _ _)
              · exact List.mem_append_right _ (List.mem_cons_of_mem _ (ihw f hf hnone))
        | none =>
          simp only [Except.ok.injEq, Prod.mk.injEq] at h
          obtain ⟨hps, hlogs⟩ := h
          subst hps
          subst hlogs
          constructor
          · simp [List.filterMap_cons, resolvedPlace, hgps, ihp]
          · intro f hf hnone
            rcases List.mem_cons.mp hf with hf | hf
            · subst hf
              exact List.mem_append_right _ (List.mem_cons_self _ _)
            · exact List.mem_append_right _ (List.mem_cons_of_mem _ (ihw f hf hnone))

/-- Claim C8: whenever processing the input sequence completes, the
records embedded in the generated page are exactly those whose
coordinates resolved, one per record in input order; every other file is
excluded and gets a warning line; and the embedded center is the mean of
the included records' coordinates alone. -/
theorem c8_markers_and_center (files : List (String × ReadResult))
    (ps : List Place) (logs : List String)
    (h : processImages files = .ok (ps, logs)) :
    generate_maps_html files =
      .ok (renderHtml (mapCenter ps).1 (mapCenter ps).2 ps, logs) ∧
    ps = files.filterMap resolvedPlace ∧
    (∀ f ∈ files, resolvedPlace f = none → warnMsg f.1 ∈ logs) ∧
    (ps ≠ [] →
      mapCenter ps = (arithMean (ps.map Place.lat), arithMean (ps.map Place.lon))) := by
  obtain ⟨h1, h2⟩ := processImages_ok_spec files ps logs h
  exact ⟨by simp [generate_maps_html, h], h1, h2, mapCenter_eq_mean ps⟩

/-- The C8 witness scenario of the spec: two files with valid GPS
metadata, one with no metadata at all. -/
def rrC8a : ReadResult :=
  .success (some [.gps ⟨some [⟨10, 1⟩, ⟨0, 1⟩, ⟨0, 1⟩], some "N",
                        some [⟨20, 1⟩, ⟨0, 1⟩, ⟨0, 1⟩], some "E", false⟩])

def rrC8b : ReadResult :=
  .success (some [.gps ⟨some [⟨30, 1⟩, ⟨0, 1⟩, ⟨0, 1⟩], some "S",
                        some [⟨40, 1⟩, ⟨30, 1⟩, ⟨0, 1⟩], some "W", false⟩])

def rrC8c : ReadResult := .success none

def filesC8 : List (String × ReadResult) :=
  [("a.jpg", rrC8a), ("b.jpg", rrC8b), ("c.jpg", rrC8c)]

def psC8 : List Place :=
  [mkPlace "a.jpg" 10 20, mkPlace "b.jpg" (-30) (-(81 / 2))]

theorem c8_witness : psC8 = filesC8.filterMap resolvedPlace :=
  (c8_markers_and_center filesC8 psC8 [warnMsg "c.jpg"]
    (by
      simp [filesC8, rrC8a, rrC8b, rrC8c, psC8, processImages, get_exif_data,
        decodeEntries, insertEntry, ExifData.empty, get_gps_coordinates, dmsComponents,
        pyIndex, ratDiv, truthyTriple, truthyRef, GPSInfoDict.isEmptyDict,
        convert_dms_to_decimal, mkPlace, Bind.bind, Except.bind]
      norm_num)).2.1
